import Mathlib

/-!
# A shallow embedding of the r3 window-manager core

This file embeds the window-management core of the `r3` repository
(`src/wm/windows.rs`, `src/wm/handlers.rs`, `src/wm/x_handlers.rs`) and
proves properties of its data model and event handlers.

The X server is modelled as an environment `XEnv` answering the queries
the manager performs (root window, live geometry, window attributes,
protocol-atom property) and an oracle `check_fails` saying which
*checked* requests the server rejects.  Each embedded handler returns
the updated manager state, the trace of requests it issued, and an
`Except Unit Unit` mirroring the Rust `xcb::Result<()>` (mutations made
before an error propagates with `?` persist, as they do in Rust).

Machine integers: window ids are `Nat`; the `i16`/`i32` coordinate
arithmetic is modelled exactly over `Int` (in Rust an overflow there
panics rather than wrapping, so values on which the program runs are
exact); the one place the code performs a lossy conversion
(`as u16` after the resize clamp) is modelled explicitly by reduction
modulo 2^16.
-/

/-- Opaque server-assigned window identifier. -/
abbrev Window := Nat

/-- 2D integer point (`src/point.rs`, fields `x y : i16`). -/
structure Point where
  x : Int
  y : Int
deriving DecidableEq, Repr

/-- Integer rectangle (`src/rect.rs`): origin `x y : i16`, extent
`w h : u16` (held here as `Int`, with u16-range hypotheses where a
theorem needs them). -/
structure Rect where
  x : Int
  y : Int
  w : Int
  h : Int
deriving DecidableEq, Repr

/-- Quadrant of a rectangle (`src/window_geometry.rs`). -/
inductive Quadrant where
  | TopLeft
  | TopRight
  | BottomLeft
  | BottomRight
deriving DecidableEq, Repr

/-- Modelled from the spec: `src/window_geometry.rs` is not among the
provided sources.  Quadrant classification of a point against a
rectangle: "compute which half of the rectangle (by x midpoint) and
which half (by y midpoint) the point falls in"; the source call site
(`drag_start_frame_rect.quadrant(&drag_start)`) returns an `Option`. -/
def Rect.quadrant (r : Rect) (p : Point) : Option Quadrant :=
  some
    (if p.x < r.x + r.w / 2 then
      if p.y < r.y + r.h / 2 then Quadrant.TopLeft else Quadrant.BottomLeft
    else
      if p.y < r.y + r.h / 2 then Quadrant.TopRight else Quadrant.BottomRight)

/-- Rust `value as u16` on an `i32` value: truncation to the low 16 bits. -/
def toU16 (n : Int) : Int := n % 65536

/-- Modelled from the spec: the `IgnoredSequences` implementation is not
among the provided sources.  "A bounded set of (sequence-number,
optional event-type) pairs"; entries are write-once and
checked-then-consumed.  (The spec allows but does not require eviction
of old entries; eviction is not modelled.) -/
structure IgnoredSequences where
  entries : List (Nat × Option Nat)
deriving DecidableEq, Repr

/-- Modelled from the spec: `record(sequence, None)` — marks a sequence
as to-be-ignored with no event-type discriminant. -/
def IgnoredSequences.add (s : IgnoredSequences) (seq : Nat) : IgnoredSequences :=
  ⟨(seq, none) :: s.entries⟩

/-- Modelled from the spec: `record(sequence, eventType)` — marks a
sequence as to-be-ignored for one event type. -/
def IgnoredSequences.addWithType (s : IgnoredSequences) (seq ty : Nat) : IgnoredSequences :=
  ⟨(seq, some ty) :: s.entries⟩

/-- An entry matches a query "on sequence alone, or on
sequence+eventType when the record specified a type". -/
def seqEntryMatches (e : Nat × Option Nat) (seq ty : Nat) : Bool :=
  e.1 == seq && (match e.2 with
    | none => true
    | some t => t == ty)

/-- Remove the first entry matching `(seq, ty)`; `none` if no entry matches. -/
def removeFirstMatch : List (Nat × Option Nat) → Nat → Nat → Option (List (Nat × Option Nat))
  | [], _, _ => none
  | e :: rest, seq, ty =>
    if seqEntryMatches e seq ty then some rest
    else (removeFirstMatch rest seq ty).map (e :: ·)

/-- Modelled from the spec: `shouldIgnore(sequence, eventType)` returns
true *and consumes the entry* if a matching record exists, false
otherwise (check-and-remove, not a persistent log). -/
def IgnoredSequences.isIgnored (s : IgnoredSequences) (seq ty : Nat) :
    Bool × IgnoredSequences :=
  match removeFirstMatch s.entries seq ty with
  | some rest => (true, ⟨rest⟩)
  | none => (false, s)

/-!
## The frame registry

`framed_clients` is a bijective map (the `bimap` crate in the source);
modelled as an association list.  `insert` removes any pair sharing the
new left or right value before inserting, which is the bimap `insert`
contract.
-/

/-- `framed_clients.get_by_left(&w)`: the frame of client `w`, if registered. -/
def getByLeft (m : List (Window × Window)) (w : Window) : Option Window :=
  (m.find? (fun p => p.1 == w)).map (·.2)

/-- `framed_clients.get_by_right(&f)`: the client of frame `f`, if registered. -/
def getByRight (m : List (Window × Window)) (f : Window) : Option Window :=
  (m.find? (fun p => p.2 == f)).map (·.1)

/-- `framed_clients.remove_by_left(&w)`. -/
def removeByLeft (m : List (Window × Window)) (w : Window) : List (Window × Window) :=
  m.filter (fun p => p.1 != w)

/-- `framed_clients.insert(w, f)` (bimap semantics: drop pairs that
collide on either side, then add the new pair). -/
def bimapInsert (m : List (Window × Window)) (w f : Window) : List (Window × Window) :=
  (w, f) :: m.filter (fun p => p.1 != w && p.2 != f)

/-- The spec's registry invariant: "a client window appears as a key at
most once; a frame window appears as a value at most once; a window is
never simultaneously a key and a value". -/
def registryOk (m : List (Window × Window)) : Prop :=
  (m.map Prod.fst).Nodup ∧ (m.map Prod.snd).Nodup ∧
    ∀ p ∈ m, ∀ q ∈ m, p.1 ≠ q.2

instance (m : List (Window × Window)) : Decidable (registryOk m) := by
  unfold registryOk; infer_instance

/-!
## Requests and the X environment
-/

/-- Stack-mode values used by the embedded handlers (`x::StackMode`). -/
def stackModeAbove : Nat := 0

/-- A configure-window value-list item (`x::ConfigWindow`). -/
inductive ConfigValue where
  | X (v : Int)
  | Y (v : Int)
  | W (v : Int)
  | H (v : Int)
  | BorderWidth (v : Int)
  | StackMode (m : Nat)
deriving DecidableEq, Repr

/-- The typed requests the embedded code issues to the X server. -/
inductive XRequest where
  | CreateWindow (wid parent : Window) (x y w h border_width : Int)
  | ChangeSaveSet (w : Window) (insert : Bool)
  | ReparentWindow (w parent : Window) (x y : Int)
  | MapWindow (w : Window)
  | UnmapWindow (w : Window)
  | DestroyWindow (w : Window)
  | GrabButton (w : Window)
  | GrabKey (w : Window)
  | ConfigureWindow (w : Window) (value_list : List ConfigValue)
  | SendEventClientMessage (dest : Window) (msg_type : Nat) (data : List Nat)
  | KillClient (resource : Window)
  | Flush
deriving DecidableEq, Repr

instance : DecidableEq (Except Unit Unit) := fun a b =>
  match a, b with
  | Except.ok (), Except.ok () => isTrue rfl
  | Except.error (), Except.error () => isTrue rfl
  | Except.ok (), Except.error () => isFalse (fun h => Except.noConfusion h)
  | Except.error (), Except.ok () => isFalse (fun h => Except.noConfusion h)

/-- The model of the X server side: replies to the queries the manager
performs, plus an oracle saying which checked requests report an error.
(Queries themselves — geometry, attributes, properties — can only fail
at the transport level, which is fatal and out of scope, so they are
total here.) -/
structure XEnv where
  /-- The root window (`get_root` / `get_root_window`). -/
  root : Window
  /-- The id `conn.generate_id()` returns for the next frame. -/
  fresh_id : Window
  /-- Modelled from the spec: `get_window_rect` is not among the provided
  sources; "querying live geometry rather than cached state". Also the
  `GetGeometry` reply inside `frame_window`. -/
  window_rect : Window → Rect
  /-- `GetWindowAttributes` reply: the override-redirect flag. -/
  override_redirect : Window → Bool
  /-- `GetWindowAttributes` reply: `map_state == Viewable`. -/
  viewable : Window → Bool
  /-- `GetProperty(WM_PROTOCOLS)` reply: the window's advertised protocol atoms. -/
  protocol_atoms : Window → List Nat
  /-- Which checked requests (`send_and_check_request`) report an error. -/
  check_fails : XRequest → Bool

/-- The atom collaborator's handles (opaque constants resolved at startup). -/
def wmProtocolsAtom : Nat := 101

/-- The `WM_DELETE_WINDOW` atom handle. -/
def wmDelWindowAtom : Nat := 102

/-- `x::CURRENT_TIME`. -/
def currentTime : Nat := 0

/-- `EnterNotifyEvent::NUMBER` (X11 EnterNotify response type). -/
def enterNotifyNumber : Nat := 7

/-- The manager's mutable state: frame registry, ignored sequences,
drag state, focused window. -/
structure ManagerState where
  framed_clients : List (Window × Window)
  ignored_sequences : IgnoredSequences
  drag_start : Option Point
  drag_start_frame_rect : Option Rect
  focused_window : Option Window
deriving DecidableEq, Repr

/-- A handler's outcome: the state after the call, the trace of issued
requests in order, and the propagated `xcb::Result<()>`. -/
abbrev HandlerOut := ManagerState × List XRequest × Except Unit Unit

/-!
## Window operations (`src/wm/windows.rs`)
-/

/-- `WindowManager::get_frame_and_window`. -/
def getFrameAndWindow (st : ManagerState) (target : Window) :
    Option (Window × Window) :=
  match getByLeft st.framed_clients target with
  | some frame => some (target, frame)
  | none =>
    match getByRight st.framed_clients target with
    | some window => some (window, target)
    | none => none

/-- The `CreateWindow` request `frame_window` issues: a frame with the
client's current geometry, a 10-pixel border, parented to the root. -/
def createFrameReq (env : XEnv) (window : Window) : XRequest :=
  XRequest.CreateWindow env.fresh_id env.root (env.window_rect window).x
    (env.window_rect window).y (env.window_rect window).w (env.window_rect window).h 10

/-- `WindowManager::frame_window`.  Every request in it is checked
(`send_and_check_request ... ?`), so a server error at any step
propagates immediately, leaving the mutations already made in place
(the registry insertion happens after the `MapWindow` step). -/
def frame_window (env : XEnv) (st : ManagerState) (window : Window)
    (existed_before_wm : Bool) : HandlerOut :=
  if existed_before_wm &&
      (env.override_redirect window || !env.viewable window) then
    (st, [], Except.ok ())
  else if env.check_fails (createFrameReq env window) then
    (st, [createFrameReq env window], Except.error ())
  else if env.check_fails (XRequest.ChangeSaveSet window true) then
    (st, [createFrameReq env window, XRequest.ChangeSaveSet window true],
      Except.error ())
  else if env.check_fails (XRequest.ReparentWindow window env.fresh_id 0 0) then
    (st, [createFrameReq env window, XRequest.ChangeSaveSet window true,
      XRequest.ReparentWindow window env.fresh_id 0 0], Except.error ())
  else if env.check_fails (XRequest.MapWindow env.fresh_id) then
    (st, [createFrameReq env window, XRequest.ChangeSaveSet window true,
      XRequest.ReparentWindow window env.fresh_id 0 0,
      XRequest.MapWindow env.fresh_id], Except.error ())
  else if env.check_fails (XRequest.GrabButton window) then
    ({ st with framed_clients := bimapInsert st.framed_clients window env.fresh_id },
      [createFrameReq env window, XRequest.ChangeSaveSet window true,
        XRequest.ReparentWindow window env.fresh_id 0 0,
        XRequest.MapWindow env.fresh_id, XRequest.GrabButton window],
      Except.error ())
  else
    ({ st with framed_clients := bimapInsert st.framed_clients window env.fresh_id },
      [createFrameReq env window, XRequest.ChangeSaveSet window true,
        XRequest.ReparentWindow window env.fresh_id 0 0,
        XRequest.MapWindow env.fresh_id, XRequest.GrabButton window,
        XRequest.GrabKey window],
      if env.check_fails (XRequest.GrabKey window) then Except.error ()
      else Except.ok ())

/-- `WindowManager::unframe_window`.  The unmap of the frame is checked
(`send_and_check_request ... ?`); the reparent, save-set removal and
frame destruction are issued with `send_request_checked` and their
cookies discarded, so their outcomes are never observed. -/
def unframe_window (env : XEnv) (st : ManagerState) (window_id : Window) :
    HandlerOut :=
  match getByLeft st.framed_clients window_id with
  | none => (st, [], Except.ok ())
  | some frame_id =>
    if env.check_fails (XRequest.UnmapWindow frame_id) then
      (st, [XRequest.UnmapWindow frame_id], Except.error ())
    else
      ({ st with framed_clients := removeByLeft st.framed_clients window_id },
        [XRequest.UnmapWindow frame_id,
          XRequest.ReparentWindow window_id env.root 0 0,
          XRequest.ChangeSaveSet window_id false,
          XRequest.DestroyWindow frame_id, XRequest.Flush],
        if env.check_fails XRequest.Flush then Except.error () else Except.ok ())

/-- `WindowManager::supports_wm_delete_window`. -/
def supports_wm_delete_window (env : XEnv) (window : Window) : Bool :=
  (env.protocol_atoms window).contains wmDelWindowAtom

/-- `WindowManager::kill_window` (takes `&self`: it never mutates the
manager state). -/
def kill_window (env : XEnv) (st : ManagerState) (window : Window) : HandlerOut :=
  if supports_wm_delete_window env window then
    (st,
      [XRequest.SendEventClientMessage window wmProtocolsAtom
          [wmDelWindowAtom, currentTime, 0, 0, 0],
        XRequest.Flush],
      if env.check_fails XRequest.Flush then Except.error () else Except.ok ())
  else
    (st, [XRequest.KillClient window],
      if env.check_fails (XRequest.KillClient window) then Except.error ()
      else Except.ok ())

/-- The window `move_window` targets: the frame if the window has one,
else the window itself. -/
def moveTarget (st : ManagerState) (window : Window) : Window :=
  match getByLeft st.framed_clients window with
  | some frame => frame
  | none => window

/-- `WindowManager::move_window`. -/
def move_window (env : XEnv) (st : ManagerState) (window : Window) (pos : Point) :
    HandlerOut :=
  (st,
    [XRequest.ConfigureWindow (moveTarget st window)
      [ConfigValue.X pos.x, ConfigValue.Y pos.y]],
    if env.check_fails (XRequest.ConfigureWindow (moveTarget st window)
        [ConfigValue.X pos.x, ConfigValue.Y pos.y]) then Except.error ()
    else Except.ok ())

/-- The `value_list` `resize_window` builds from the target rectangle. -/
def resizeValueList (rect : Rect) : List ConfigValue :=
  [ConfigValue.X rect.x, ConfigValue.Y rect.y,
    ConfigValue.W rect.w, ConfigValue.H rect.h]

/-- `WindowManager::resize_window`: if framed, configure the frame to
`rect` and the client to the same extent at local offset (0,0); else
configure the bare window to `rect`. -/
def resize_window (env : XEnv) (st : ManagerState) (window : Window) (rect : Rect) :
    HandlerOut :=
  match getByLeft st.framed_clients window with
  | some frame_id =>
    if env.check_fails (XRequest.ConfigureWindow frame_id (resizeValueList rect)) then
      (st, [XRequest.ConfigureWindow frame_id (resizeValueList rect)], Except.error ())
    else
      (st,
        [XRequest.ConfigureWindow frame_id (resizeValueList rect),
          XRequest.ConfigureWindow window (resizeValueList ⟨0, 0, rect.w, rect.h⟩)],
        if env.check_fails
            (XRequest.ConfigureWindow window (resizeValueList ⟨0, 0, rect.w, rect.h⟩)) then
          Except.error ()
        else Except.ok ())
  | none =>
    (st, [XRequest.ConfigureWindow window (resizeValueList rect)],
      if env.check_fails (XRequest.ConfigureWindow window (resizeValueList rect)) then
        Except.error ()
      else Except.ok ())

/-!
## Events and event handlers

The handlers in `src/wm/handlers.rs` and `src/r3/src/wm/x_handlers.rs`
are textually identical for configure-request, button-press,
motion-notify and button-release; they differ for unmap-notify (the
`x_handlers.rs` version also records the event's sequence in the
ignored-sequences filter).  Shared handlers are embedded once, under
`XHandlers`; the older unmap-notify handler is embedded under
`Handlers`.
-/

/-- The key/button state bits of an input event (`x::KeyButMask`);
only the bits the handlers test are modelled. -/
structure KeyButMask where
  control : Bool
  button1 : Bool
  button3 : Bool
deriving DecidableEq, Repr

/-- `x::ConfigureRequestEvent` (the fields the handler reads). -/
structure ConfigureRequestEvent where
  window : Window
  x : Int
  y : Int
  width : Int
  height : Int
  border_width : Int
  stack_mode : Nat
deriving DecidableEq, Repr

/-- `x::UnmapNotifyEvent` (the fields the handler reads):
`event` is the container window, `window` the unmapped window. -/
structure UnmapNotifyEvent where
  sequence : Nat
  event : Window
  window : Window
deriving DecidableEq, Repr

/-- `x::ButtonPressEvent` / `x::MotionNotifyEvent` (the fields the
handlers read). -/
structure ButtonEvent where
  event : Window
  root_x : Int
  root_y : Int
  state : KeyButMask
deriving DecidableEq, Repr

/-- `wm::DragType`. -/
inductive DragType where
  | Move
  | Resize
deriving DecidableEq, Repr

/-- The inline drag-kind selection in `on_motion_notify`: button 1
gives `Move`, else button 3 gives `Resize`, else no drag action. -/
def dragTypeOf (s : KeyButMask) : Option DragType :=
  if s.button1 then some DragType.Move
  else if s.button3 then some DragType.Resize
  else none

/-- The per-quadrant resize arithmetic of `on_motion_notify`: recompute
origin and extent from the original rectangle `r` and the pointer delta,
clamping width/height at a minimum of 1 (`cmp::max(1, ..)`), then cast
to `u16`. -/
def resizeTarget (q : Quadrant) (r : Rect) (delta : Point) : Rect :=
  match q with
  | Quadrant.TopLeft =>
    ⟨r.x + delta.x, r.y + delta.y,
      toU16 (max 1 (r.w - delta.x)), toU16 (max 1 (r.h - delta.y))⟩
  | Quadrant.TopRight =>
    ⟨r.x, r.y + delta.y,
      toU16 (max 1 (r.w + delta.x)), toU16 (max 1 (r.h - delta.y))⟩
  | Quadrant.BottomLeft =>
    ⟨r.x + delta.x, r.y,
      toU16 (max 1 (r.w - delta.x)), toU16 (max 1 (r.h + delta.y))⟩
  | Quadrant.BottomRight =>
    ⟨r.x, r.y,
      toU16 (max 1 (r.w + delta.x)), toU16 (max 1 (r.h + delta.y))⟩

/-- The `value_list` built at the top of `on_configure_request`
(echoing the event's requested values verbatim; the `Sibling` entry is
commented out in the source). -/
def configRequestValueList (ev : ConfigureRequestEvent) : List ConfigValue :=
  [ConfigValue.X ev.x, ConfigValue.Y ev.y,
    ConfigValue.W ev.width, ConfigValue.H ev.height,
    ConfigValue.BorderWidth ev.border_width, ConfigValue.StackMode ev.stack_mode]

namespace XHandlers

/-- `WindowManager::on_configure_request` (identical in
`handlers.rs` and `x_handlers.rs`): echo the requested values to the
frame (if any) and then to the window itself. -/
def on_configure_request (env : XEnv) (st : ManagerState)
    (ev : ConfigureRequestEvent) : HandlerOut :=
  match getByLeft st.framed_clients ev.window with
  | some frame_id =>
    if env.check_fails
        (XRequest.ConfigureWindow frame_id (configRequestValueList ev)) then
      (st, [XRequest.ConfigureWindow frame_id (configRequestValueList ev)],
        Except.error ())
    else
      (st,
        [XRequest.ConfigureWindow frame_id (configRequestValueList ev),
          XRequest.ConfigureWindow ev.window (configRequestValueList ev)],
        if env.check_fails
            (XRequest.ConfigureWindow ev.window (configRequestValueList ev)) then
          Except.error ()
        else Except.ok ())
  | none =>
    (st, [XRequest.ConfigureWindow ev.window (configRequestValueList ev)],
      if env.check_fails
          (XRequest.ConfigureWindow ev.window (configRequestValueList ev)) then
        Except.error ()
      else Except.ok ())

/-- `WindowManager::on_unmap_notify` in `x_handlers.rs`: record the
sequence (for EnterNotify) *first*, then ignore the event if its
container is the root window, else unframe. -/
def on_unmap_notify (env : XEnv) (st : ManagerState) (ev : UnmapNotifyEvent) :
    HandlerOut :=
  if ev.event == env.root then
    ({ st with ignored_sequences :=
        st.ignored_sequences.addWithType ev.sequence enterNotifyNumber },
      [], Except.ok ())
  else
    unframe_window env
      { st with ignored_sequences :=
          st.ignored_sequences.addWithType ev.sequence enterNotifyNumber }
      ev.window

/-- The drag-state update `on_button_press` makes: if Ctrl is held or
the press target is the frame, capture the anchor (pointer root
coordinates) and the frame's current rectangle; otherwise no change. -/
def pressDragState (env : XEnv) (st : ManagerState) (ev : ButtonEvent)
    (frame : Window) : ManagerState :=
  if ev.state.control || ev.event == frame then
    { st with drag_start := some ⟨ev.root_x, ev.root_y⟩,
              drag_start_frame_rect := some (env.window_rect frame) }
  else st

/-- `WindowManager::on_button_press` (identical in `handlers.rs` and
`x_handlers.rs`): start a drag if Ctrl is held or the press target is
the frame; focus and raise in any case. -/
def on_button_press (env : XEnv) (st : ManagerState) (ev : ButtonEvent) :
    HandlerOut :=
  match getFrameAndWindow st ev.event with
  | none => (st, [], Except.ok ())
  | some (window, frame) =>
    ({ pressDragState env st ev frame with focused_window := some window },
      [XRequest.ConfigureWindow frame [ConfigValue.StackMode stackModeAbove]],
      if env.check_fails
          (XRequest.ConfigureWindow frame [ConfigValue.StackMode stackModeAbove]) then
        Except.error ()
      else Except.ok ())

/-- `WindowManager::on_motion_notify` (identical in `handlers.rs` and
`x_handlers.rs`): when a drag is active, move (button 1) or resize
(button 3) relative to the stored anchor and original frame rectangle. -/
def on_motion_notify (env : XEnv) (st : ManagerState) (ev : ButtonEvent) :
    HandlerOut :=
  match getFrameAndWindow st ev.event with
  | none => (st, [], Except.ok ())
  | some (window, _) =>
  match st.drag_start with
  | none => (st, [], Except.ok ())
  | some drag_start =>
  match st.drag_start_frame_rect with
  | none => (st, [], Except.ok ())
  | some r =>
  match dragTypeOf ev.state with
  | none => (st, [], Except.ok ())
  | some DragType.Move =>
    move_window env st window
      ⟨r.x + (ev.root_x - drag_start.x), r.y + (ev.root_y - drag_start.y)⟩
  | some DragType.Resize =>
    match r.quadrant drag_start with
    | none => (st, [], Except.ok ())
    | some q =>
      resize_window env st window
        (resizeTarget q r ⟨ev.root_x - drag_start.x, ev.root_y - drag_start.y⟩)

end XHandlers

namespace Handlers

/-- `WindowManager::on_unmap_notify` in `handlers.rs`: ignore the event
if its container is the root window, else unframe (no sequence
recording in this version). -/
def on_unmap_notify (env : XEnv) (st : ManagerState) (ev : UnmapNotifyEvent) :
    HandlerOut :=
  if ev.event == env.root then (st, [], Except.ok ())
  else unframe_window env st ev.window

end Handlers

/-!
## Concrete fixtures used by witnesses and counterexamples
-/

/-- A 30×30 rectangle at the origin (the geometry used by the
integration tests). -/
def rect30 : Rect := ⟨0, 0, 30, 30⟩

/-- An X environment in which every checked request succeeds. -/
def envOk : XEnv :=
  { root := 0
    fresh_id := 50
    window_rect := fun _ => rect30
    override_redirect := fun _ => false
    viewable := fun _ => true
    protocol_atoms := fun _ => []
    check_fails := fun _ => false }

/-- An X environment in which every `UnmapWindow` request reports an
error (e.g. the frame id has become invalid) and all other checked
requests succeed. -/
def envUnmapFails : XEnv :=
  { envOk with
    check_fails := fun r =>
      match r with
      | XRequest.UnmapWindow _ => true
      | _ => false }

/-- An X environment whose windows all advertise `WM_DELETE_WINDOW`
support (the `can_gracefully_kill_window` test setup). -/
def envSupportsDelete : XEnv :=
  { envOk with protocol_atoms := fun _ => [wmDelWindowAtom] }

/-- A manager state with one framed client: client 1 inside frame 2. -/
def st1 : ManagerState :=
  { framed_clients := [(1, 2)]
    ignored_sequences := ⟨[]⟩
    drag_start := none
    drag_start_frame_rect := none
    focused_window := none }

/-!
## Registry helper lemmas
-/

/-- After `remove_by_left`, `get_by_left` finds nothing for that key. -/
theorem getByLeft_removeByLeft (m : List (Window × Window)) (w : Window) :
    getByLeft (removeByLeft m w) w = none := by
  simp only [getByLeft, removeByLeft, Option.map_eq_none', List.find?_eq_none,
    List.mem_filter, bne_iff_ne, ne_eq, and_imp, beq_iff_eq]
  intro p _ h
  exact h

/-- `get_by_left m w = none` says exactly that no pair's key is `w`. -/
theorem getByLeft_eq_none_iff (m : List (Window × Window)) (w : Window) :
    getByLeft m w = none ↔ ∀ p ∈ m, p.1 ≠ w := by
  simp only [getByLeft, Option.map_eq_none', List.find?_eq_none, beq_iff_eq, ne_eq]

/-- `get_by_right m f = none` says exactly that no pair's value is `f`. -/
theorem getByRight_eq_none_iff (m : List (Window × Window)) (f : Window) :
    getByRight m f = none ↔ ∀ p ∈ m, p.2 ≠ f := by
  simp only [getByRight, Option.map_eq_none', List.find?_eq_none, beq_iff_eq, ne_eq]

/-!
## C1 — unframe teardown
-/

/-- C1 (counterexample): the claim "every teardown step is attempted
regardless of whether a prior step reported an error ... the registry
entry is always dropped" is false: when the checked unmap of the frame
reports an error, `unframe_window` returns early — the reparent and
frame destruction are never issued and the registry entry survives. -/
theorem unframe_window_unmap_error_skips_teardown :
    (unframe_window envUnmapFails st1 1).1.framed_clients = [(1, 2)] ∧
    XRequest.ReparentWindow 1 envUnmapFails.root 0 0 ∉ (unframe_window envUnmapFails st1 1).2.1 ∧
    XRequest.ChangeSaveSet 1 false ∉ (unframe_window envUnmapFails st1 1).2.1 ∧
    XRequest.DestroyWindow 2 ∉ (unframe_window envUnmapFails st1 1).2.1 ∧
    (unframe_window envUnmapFails st1 1).2.2 = Except.error () := by
  decide

/-- C1 (amended): for a registered client, once the initial (checked)
unmap of the frame does not report an error, every remaining teardown
step is performed unconditionally — the reparent, save-set removal and
frame destruction are issued as unchecked fire-and-forget requests (so
no error they produce can abort the sequence), the registry entry is
dropped, and the connection is flushed.  An error on the initial unmap,
however, aborts the handler before the remaining steps. -/
theorem unframe_window_teardown (env : XEnv) (st : ManagerState) (w f : Window)
    (hreg : getByLeft st.framed_clients w = some f)
    (hunmap : env.check_fails (XRequest.UnmapWindow f) = false) :
    unframe_window env st w =
      ({ st with framed_clients := removeByLeft st.framed_clients w },
        [XRequest.UnmapWindow f, XRequest.ReparentWindow w env.root 0 0,
          XRequest.ChangeSaveSet w false, XRequest.DestroyWindow f, XRequest.Flush],
        if env.check_fails XRequest.Flush then Except.error () else Except.ok ()) ∧
    getByLeft (unframe_window env st w).1.framed_clients w = none := by
  have hmain : unframe_window env st w =
      ({ st with framed_clients := removeByLeft st.framed_clients w },
        [XRequest.UnmapWindow f, XRequest.ReparentWindow w env.root 0 0,
          XRequest.ChangeSaveSet w false, XRequest.DestroyWindow f, XRequest.Flush],
        if env.check_fails XRequest.Flush then Except.error () else Except.ok ()) := by
    unfold unframe_window
    rw [hreg]
    simp [hunmap]
  refine ⟨hmain, ?_⟩
  rw [hmain]
  exact getByLeft_removeByLeft st.framed_clients w

/-- C1 (witness): the amended teardown theorem at a concrete input. -/
theorem unframe_window_teardown_witness :
    unframe_window envOk st1 1 =
      ({ st1 with framed_clients := [] },
        [XRequest.UnmapWindow 2, XRequest.ReparentWindow 1 0 0 0,
          XRequest.ChangeSaveSet 1 false, XRequest.DestroyWindow 2, XRequest.Flush],
        Except.ok ()) ∧
    getByLeft (unframe_window envOk st1 1).1.framed_clients 1 = none := by
  have h := unframe_window_teardown envOk st1 1 2 (by decide) (by decide)
  exact ⟨by rw [h.1]; decide, h.2⟩

/-!
## C6 — unframe idempotence
-/

/-- C6: `unframe_window` on an unregistered client is a no-op returning
success; after any successful `unframe_window` the registry holds no
entry for that client, so a second call is a no-op (idempotence). -/
theorem unframe_window_idempotent (env : XEnv) (st : ManagerState) (w : Window) :
    (getByLeft st.framed_clients w = none →
      unframe_window env st w = (st, [], Except.ok ())) ∧
    (∀ st' tr, unframe_window env st w = (st', tr, Except.ok ()) →
      getByLeft st'.framed_clients w = none ∧
      unframe_window env st' w = (st', [], Except.ok ())) := by
  constructor
  · intro hnone
    unfold unframe_window
    rw [hnone]
  · intro st' tr hok
    have hnone : getByLeft st'.framed_clients w = none := by
      match hreg : getByLeft st.framed_clients w with
      | none =>
        unfold unframe_window at hok
        rw [hreg] at hok
        obtain ⟨h1, _, _⟩ := Prod.mk.injEq .. ▸ hok
        rw [← h1]
        exact hreg
      | some f =>
        unfold unframe_window at hok
        rw [hreg] at hok
        by_cases hu : env.check_fails (XRequest.UnmapWindow f)
        · simp only [hu, if_true] at hok
          exact absurd (congrArg (fun z => z.2.2) hok) (by simp)
        · simp only [hu, if_false] at hok
          have h1 : st'.framed_clients = removeByLeft st.framed_clients w := by
            have := congrArg (fun z => z.1.framed_clients) hok
            simpa using this.symm
          rw [h1]
          exact getByLeft_removeByLeft st.framed_clients w
    refine ⟨hnone, ?_⟩
    unfold unframe_window
    rw [hnone]

/-- C6 (witness): idempotence at a concrete input — unframing client 1
once succeeds and empties the registry, and the second call is a no-op. -/
theorem unframe_window_idempotent_witness :
    getByLeft ((unframe_window envOk st1 1).1).framed_clients 1 = none ∧
    unframe_window envOk (unframe_window envOk st1 1).1 1 =
      ((unframe_window envOk st1 1).1, [], Except.ok ()) := by
  have h := (unframe_window_idempotent envOk st1 1).2
    (unframe_window envOk st1 1).1 (unframe_window envOk st1 1).2.1 (by decide)
  exact h

/-!
## C8 — registry bijection invariant
-/

/-- Filtering an association list preserves the registry invariant. -/
theorem registryOk_filter (m : List (Window × Window))
    (q : Window × Window → Bool) (hok : registryOk m) :
    registryOk (m.filter q) := by
  obtain ⟨h1, h2, h3⟩ := hok
  refine ⟨?_, ?_, ?_⟩
  · exact List.Nodup.sublist ((m.filter_sublist).map Prod.fst) h1
  · exact List.Nodup.sublist ((m.filter_sublist).map Prod.snd) h2
  · intro p hp p' hp'
    exact h3 p (List.mem_of_mem_filter hp) p' (List.mem_of_mem_filter hp')

/-- Removal by key preserves the registry invariant. -/
theorem registryOk_removeByLeft (m : List (Window × Window)) (w : Window)
    (hok : registryOk m) : registryOk (removeByLeft m w) :=
  registryOk_filter m _ hok

/-- Bimap insertion of a pair whose frame is globally fresh and whose
client is not some frame preserves the registry invariant. -/
theorem registryOk_bimapInsert (m : List (Window × Window)) (w f : Window)
    (hok : registryOk m)
    (hfk : ∀ p ∈ m, p.1 ≠ f) (hfv : ∀ p ∈ m, p.2 ≠ f)
    (hwv : ∀ p ∈ m, p.2 ≠ w) (hne : w ≠ f) :
    registryOk (bimapInsert m w f) := by
  have hsub : ∀ p ∈ m.filter (fun p => p.1 != w && p.2 != f), p ∈ m :=
    fun p hp => List.mem_of_mem_filter hp
  have hfil := registryOk_filter m (fun p => p.1 != w && p.2 != f) hok
  obtain ⟨f1, f2, f3⟩ := hfil
  refine ⟨?_, ?_, ?_⟩
  · refine List.nodup_cons.mpr ⟨?_, f1⟩
    intro hmem
    obtain ⟨p, hp, hpw⟩ := List.mem_map.mp hmem
    have := List.of_mem_filter hp
    simp only [bne_iff_ne, ne_eq, Bool.and_eq_true, decide_eq_true_eq] at this
    exact this.1 hpw
  · refine List.nodup_cons.mpr ⟨?_, f2⟩
    intro hmem
    obtain ⟨p, hp, hpf⟩ := List.mem_map.mp hmem
    exact hfv p (hsub p hp) hpf
  · intro p hp p' hp'
    rcases List.mem_cons.mp hp with hpw | hpmem <;>
      rcases List.mem_cons.mp hp' with hp'w | hp'mem
    · rw [hpw, hp'w]; exact hne
    · rw [hpw]
      exact fun hh => hwv p' (hsub p' hp'mem) hh.symm
    · rw [hp'w]
      exact fun hh => hfk p (hsub p hpmem) hh
    · exact f3 p hpmem p' hp'mem

/-- `frame_window` leaves the registry unchanged or performs exactly
the bimap insertion of `(window, fresh frame id)`. -/
theorem frame_window_registry_cases (env : XEnv) (st : ManagerState)
    (w : Window) (e : Bool) :
    (frame_window env st w e).1.framed_clients = st.framed_clients ∨
    (frame_window env st w e).1.framed_clients =
      bimapInsert st.framed_clients w env.fresh_id := by
  unfold frame_window
  split
  · exact Or.inl rfl
  · split
    · exact Or.inl rfl
    · split
      · exact Or.inl rfl
      · split
        · exact Or.inl rfl
        · split
          · exact Or.inl rfl
          · split
            · exact Or.inr rfl
            · exact Or.inr rfl

/-- `unframe_window` leaves the registry unchanged or performs exactly
the removal of the client's entry. -/
theorem unframe_window_registry_cases (env : XEnv) (st : ManagerState)
    (w : Window) :
    (unframe_window env st w).1.framed_clients = st.framed_clients ∨
    (unframe_window env st w).1.framed_clients =
      removeByLeft st.framed_clients w := by
  unfold unframe_window
  split
  · exact Or.inl rfl
  · split
    · exact Or.inl rfl
    · exact Or.inr rfl

/-- C8: both registry-mutating operations — the insertion `frame_window`
performs and the removal `unframe_window` performs — preserve the
bijection invariant (keys unique, values unique, no window both key and
value), given what the code guarantees at the call sites: the frame id
comes from `generate_id` (fresh, so never an existing key or value and
distinct from the client) and the framed client is a client window, not
some registered frame. -/
theorem registry_bijection_preserved (env : XEnv) (st : ManagerState)
    (w : Window) (existed : Bool)
    (hok : registryOk st.framed_clients)
    (hfresh_key : getByLeft st.framed_clients env.fresh_id = none)
    (hfresh_val : getByRight st.framed_clients env.fresh_id = none)
    (hw_val : getByRight st.framed_clients w = none)
    (hne : w ≠ env.fresh_id) :
    registryOk (frame_window env st w existed).1.framed_clients ∧
    registryOk (unframe_window env st w).1.framed_clients := by
  have hfk := (getByLeft_eq_none_iff _ _).mp hfresh_key
  have hfv := (getByRight_eq_none_iff _ _).mp hfresh_val
  have hwv := (getByRight_eq_none_iff _ _).mp hw_val
  constructor
  · rcases frame_window_registry_cases env st w existed with h | h <;> rw [h]
    · exact hok
    · exact registryOk_bimapInsert st.framed_clients w env.fresh_id hok hfk hfv hwv hne
  · rcases unframe_window_registry_cases env st w with h | h <;> rw [h]
    · exact hok
    · exact registryOk_removeByLeft st.framed_clients w hok

/-- C8 (witness): the invariant-preservation theorem at a concrete
input — framing client 3 (fresh frame id 50) and unframing client 3,
starting from the registry `[(1, 2)]`. -/
theorem registry_bijection_preserved_witness :
    registryOk (frame_window envOk st1 3 false).1.framed_clients ∧
    registryOk (unframe_window envOk st1 3).1.framed_clients :=
  registry_bijection_preserved envOk st1 3 false (by decide) (by decide)
    (by decide) (by decide) (by decide)

/-!
## C3 — sequence filter consumes entries
-/

/-- If no entry carries the queried sequence, nothing matches. -/
theorem removeFirstMatch_eq_none (l : List (Nat × Option Nat)) (seq ty : Nat)
    (h : ∀ e ∈ l, e.1 ≠ seq) : removeFirstMatch l seq ty = none := by
  induction l with
  | nil => rfl
  | cons e rest ih =>
    have he : e.1 ≠ seq := h e (List.mem_cons_self e rest)
    have hm : seqEntryMatches e seq ty = false := by
      simp only [seqEntryMatches, Bool.and_eq_false_iff]
      exact Or.inl (beq_eq_false_iff_ne.mpr he)
    rw [removeFirstMatch, hm]
    simp only [Bool.false_eq_true, if_false]
    rw [ih (fun e' he' => h e' (List.mem_cons_of_mem e he'))]
    rfl

/-- C3: after `record(seq, None)` on a filter not already holding `seq`,
the first `shouldIgnore(seq, t)` returns true for any event type `t`
and consumes the entry (restoring the previous filter state); a second
call with the same `seq` (any event type) returns false. -/
theorem sequence_filter_consume_once (s : IgnoredSequences) (seq t t' : Nat)
    (hfresh : ∀ e ∈ s.entries, e.1 ≠ seq) :
    ((s.add seq).isIgnored seq t).1 = true ∧
    ((s.add seq).isIgnored seq t).2 = s ∧
    (((s.add seq).isIgnored seq t).2.isIgnored seq t').1 = false := by
  have hm : seqEntryMatches (seq, none) seq t = true := by
    simp [seqEntryMatches]
  have h1 : (s.add seq).isIgnored seq t = (true, s) := by
    unfold IgnoredSequences.isIgnored IgnoredSequences.add
    rw [removeFirstMatch, hm]
    simp only [if_true]
  refine ⟨by rw [h1], by rw [h1], ?_⟩
  rw [h1]
  unfold IgnoredSequences.isIgnored
  rw [removeFirstMatch_eq_none s.entries seq t' hfresh]

/-- C3 (witness): the consume-once law at a concrete input (empty
filter, sequence 42, queried with event types 7 then 9). -/
theorem sequence_filter_consume_once_witness :
    ((IgnoredSequences.add ⟨[]⟩ 42).isIgnored 42 7).1 = true ∧
    ((IgnoredSequences.add ⟨[]⟩ 42).isIgnored 42 7).2 = ⟨[]⟩ ∧
    (((IgnoredSequences.add ⟨[]⟩ 42).isIgnored 42 7).2.isIgnored 42 9).1 = false :=
  sequence_filter_consume_once ⟨[]⟩ 42 7 9 (by decide)

/-!
## C4 — unmap-notify with a root container
-/

/-- A root-container unmap event (sequence 42, unmapped window 1). -/
def evRootUnmap : UnmapNotifyEvent := { sequence := 42, event := 0, window := 1 }

/-- C4 (counterexample): the claim that a root-container unmap-notify
"leaves the entire ManagerState (frame registry, ignored-sequences set,
drag state, focused window) unchanged" is false for the `x_handlers.rs`
handler: the event's sequence is recorded in the ignored-sequences set
before the root check, so the state does change. -/
theorem unmap_notify_root_mutates_state :
    (XHandlers.on_unmap_notify envOk st1 evRootUnmap).1 ≠ st1 ∧
    (XHandlers.on_unmap_notify envOk st1 evRootUnmap).1.ignored_sequences ≠
      st1.ignored_sequences ∧
    (XHandlers.on_unmap_notify envOk st1 evRootUnmap).2.2 = Except.ok () := by
  decide

/-- C4 (amended): for a root-container event the `x_handlers.rs`
handler returns successfully, issuing no requests and leaving the frame
registry, drag state and focused window unchanged — but the event's
sequence has already been marked ignorable (the marking happens
unconditionally, before the root check); the older `handlers.rs`
handler leaves the whole state unchanged.  Only for a non-root
container is the window unframed (with, in `x_handlers.rs`, the
sequence likewise marked). -/
theorem unmap_notify_root_behavior (env : XEnv) (st : ManagerState)
    (ev : UnmapNotifyEvent) :
    (ev.event = env.root →
      XHandlers.on_unmap_notify env st ev =
        ({ st with ignored_sequences :=
            st.ignored_sequences.addWithType ev.sequence enterNotifyNumber },
          [], Except.ok ()) ∧
      Handlers.on_unmap_notify env st ev = (st, [], Except.ok ())) ∧
    (ev.event ≠ env.root →
      XHandlers.on_unmap_notify env st ev =
        unframe_window env
          { st with ignored_sequences :=
              st.ignored_sequences.addWithType ev.sequence enterNotifyNumber }
          ev.window ∧
      Handlers.on_unmap_notify env st ev = unframe_window env st ev.window) := by
  constructor
  · intro hroot
    have hb : (ev.event == env.root) = true := beq_iff_eq.mpr hroot
    unfold XHandlers.on_unmap_notify Handlers.on_unmap_notify
    rw [hb]
    exact ⟨rfl, rfl⟩
  · intro hroot
    have hb : (ev.event == env.root) = false := beq_eq_false_iff_ne.mpr hroot
    unfold XHandlers.on_unmap_notify Handlers.on_unmap_notify
    rw [hb]
    exact ⟨rfl, rfl⟩

/-- C4 (witness): the amended unmap-notify behavior at the concrete
root-container event. -/
theorem unmap_notify_root_behavior_witness :
    XHandlers.on_unmap_notify envOk st1 evRootUnmap =
      ({ st1 with ignored_sequences :=
          st1.ignored_sequences.addWithType 42 enterNotifyNumber },
        [], Except.ok ()) ∧
    Handlers.on_unmap_notify envOk st1 evRootUnmap = (st1, [], Except.ok ()) :=
  (unmap_notify_root_behavior envOk st1 evRootUnmap).1 (by decide)

/-!
## C2 — TopLeft resize law
-/

/-- A manager state mid-drag: client 10 in frame 20, anchor (1,1),
original frame rectangle 5×5 at the origin (anchor classified TopLeft). -/
def stDrag : ManagerState :=
  { framed_clients := [(10, 20)]
    ignored_sequences := ⟨[]⟩
    drag_start := some ⟨1, 1⟩
    drag_start_frame_rect := some ⟨0, 0, 5, 5⟩
    focused_window := none }

/-- A resize-drag motion event on client 10 with pointer delta (10, 10). -/
def evResize : ButtonEvent :=
  { event := 10, root_x := 11, root_y := 11,
    state := { control := false, button1 := false, button3 := true } }

/-- C2 (counterexample): for a TopLeft-classified drag the claim that
the bottom-right corner is invariant "for every such positive delta" is
false: original rectangle 5×5 at the origin, positive delta (10, 10) —
the clamp floors width and height at 1, so the handler issues a frame
rectangle with origin (10, 10) and extent (1, 1), whose bottom-right
corner 10 + 1 = 11 differs from the original 0 + 5 = 5. -/
theorem resize_topleft_corner_not_invariant :
    (⟨0, 0, 5, 5⟩ : Rect).quadrant ⟨1, 1⟩ = some Quadrant.TopLeft ∧
    (0 : Int) < 11 - 1 ∧
    XHandlers.on_motion_notify envOk stDrag evResize =
      resize_window envOk stDrag 10 ⟨10, 10, 1, 1⟩ ∧
    (10 : Int) + 1 ≠ 0 + 5 := by
  decide

/-- C2 (amended): for a motion event of an active resize drag whose
anchor is classified TopLeft, a positive pointer delta `(dx, dy)`
always produces the target rectangle with origin `(x+dx, y+dy)` and
extent `(max 1 (w-dx), max 1 (h-dy))`; the bottom-right corner's
absolute position is invariant whenever the clamp does not engage,
i.e. when `dx ≤ w-1` and `dy ≤ h-1` (for larger deltas the floor at 1
moves the corner, as the counterexample shows). -/
theorem resize_topleft_quadrant_law (env : XEnv) (st : ManagerState)
    (ev : ButtonEvent) (w f : Window) (a : Point) (r : Rect)
    (hreg : getFrameAndWindow st ev.event = some (w, f))
    (ha : st.drag_start = some a)
    (hr : st.drag_start_frame_rect = some r)
    (hq : r.quadrant a = some Quadrant.TopLeft)
    (hb1 : ev.state.button1 = false)
    (hb3 : ev.state.button3 = true)
    (hwl : 1 ≤ r.w) (hwu : r.w ≤ 65535)
    (hhl : 1 ≤ r.h) (hhu : r.h ≤ 65535)
    (hdx : 0 < ev.root_x - a.x) (hdy : 0 < ev.root_y - a.y) :
    XHandlers.on_motion_notify env st ev =
      resize_window env st w
        ⟨r.x + (ev.root_x - a.x), r.y + (ev.root_y - a.y),
          max 1 (r.w - (ev.root_x - a.x)), max 1 (r.h - (ev.root_y - a.y))⟩ ∧
    (ev.root_x - a.x ≤ r.w - 1 →
      r.x + (ev.root_x - a.x) + max 1 (r.w - (ev.root_x - a.x)) = r.x + r.w) ∧
    (ev.root_y - a.y ≤ r.h - 1 →
      r.y + (ev.root_y - a.y) + max 1 (r.h - (ev.root_y - a.y)) = r.y + r.h) := by
  have hdt : dragTypeOf ev.state = some DragType.Resize := by
    simp [dragTypeOf, hb1, hb3]
  have htw : toU16 (max 1 (r.w - (ev.root_x - a.x))) =
      max 1 (r.w - (ev.root_x - a.x)) := by
    have h1 : (1 : Int) ≤ max 1 (r.w - (ev.root_x - a.x)) := le_max_left _ _
    have h2 : max 1 (r.w - (ev.root_x - a.x)) ≤ 65535 :=
      max_le (by norm_num) (by omega)
    unfold toU16
    omega
  have hth : toU16 (max 1 (r.h - (ev.root_y - a.y))) =
      max 1 (r.h - (ev.root_y - a.y)) := by
    have h1 : (1 : Int) ≤ max 1 (r.h - (ev.root_y - a.y)) := le_max_left _ _
    have h2 : max 1 (r.h - (ev.root_y - a.y)) ≤ 65535 :=
      max_le (by norm_num) (by omega)
    unfold toU16
    omega
  refine ⟨?_, ?_, ?_⟩
  · simp only [XHandlers.on_motion_notify, hreg, ha, hr, hdt, hq, resizeTarget]
    rw [htw, hth]
  · intro hle
    have : max 1 (r.w - (ev.root_x - a.x)) = r.w - (ev.root_x - a.x) :=
      max_eq_right (by omega)
    omega
  · intro hle
    have : max 1 (r.h - (ev.root_y - a.y)) = r.h - (ev.root_y - a.y) :=
      max_eq_right (by omega)
    omega

/-- A manager state mid-drag on a 30×30 frame with anchor (5, 5). -/
def stDrag30 : ManagerState :=
  { framed_clients := [(10, 20)]
    ignored_sequences := ⟨[]⟩
    drag_start := some ⟨5, 5⟩
    drag_start_frame_rect := some ⟨0, 0, 30, 30⟩
    focused_window := none }

/-- A resize-drag motion event with small positive delta (3, 4). -/
def evResize30 : ButtonEvent :=
  { event := 10, root_x := 8, root_y := 9,
    state := { control := false, button1 := false, button3 := true } }

/-- C2 (witness): the amended TopLeft law at a concrete input — delta
(3, 4) on a 30×30 frame yields target (3, 4, 27, 26), preserving the
bottom-right corner. -/
theorem resize_topleft_quadrant_law_witness :
    XHandlers.on_motion_notify envOk stDrag30 evResize30 =
      resize_window envOk stDrag30 10 ⟨3, 4, 27, 26⟩ ∧
    (3 : Int) + 27 = 0 + 30 ∧ (4 : Int) + 26 = 0 + 30 := by
  have h := resize_topleft_quadrant_law envOk stDrag30 evResize30 10 20
    ⟨5, 5⟩ ⟨0, 0, 30, 30⟩ (by decide) (by decide) (by decide) (by decide)
    (by decide) (by decide) (by decide) (by decide) (by decide) (by decide)
    (by decide) (by decide)
  refine ⟨?_, by decide, by decide⟩
  rw [h.1]
  decide

/-!
## C5 — kill path
-/

/-- C5: `kill_window` never mutates the manager state (no tracking of
previously sent close requests — the decision is one-shot per call);
when the window advertises `WM_DELETE_WINDOW` it sends exactly one
synthetic close client-message (then flushes) and no forced-termination
request; otherwise it issues exactly the forced `KillClient` request
and no synthetic close message. -/
theorem kill_window_one_shot (env : XEnv) (st : ManagerState) (w : Window) :
    (kill_window env st w).1 = st ∧
    (supports_wm_delete_window env w = true →
      (kill_window env st w).2.1 =
        [XRequest.SendEventClientMessage w wmProtocolsAtom
          [wmDelWindowAtom, currentTime, 0, 0, 0], XRequest.Flush] ∧
      ∀ res, XRequest.KillClient res ∉ (kill_window env st w).2.1) ∧
    (supports_wm_delete_window env w = false →
      (kill_window env st w).2.1 = [XRequest.KillClient w] ∧
      ∀ d ty data,
        XRequest.SendEventClientMessage d ty data ∉ (kill_window env st w).2.1) := by
  by_cases hs : supports_wm_delete_window env w
  · refine ⟨by simp [kill_window, hs], fun _ => ⟨by simp [kill_window, hs], ?_⟩,
      fun hc => absurd hs (by simp [hc])⟩
    intro res
    simp [kill_window, hs]
  · refine ⟨by simp [kill_window, hs], fun hc => absurd hc (by simp [hs]),
      fun _ => ⟨by simp [kill_window, hs], ?_⟩⟩
    intro d ty data
    simp [kill_window, hs]

/-- C5 (witness): the one-shot kill decision at concrete inputs — a
window advertising the delete protocol gets only the synthetic close
message, one that does not gets only the forced kill. -/
theorem kill_window_one_shot_witness :
    (kill_window envSupportsDelete st1 1).1 = st1 ∧
    (kill_window envSupportsDelete st1 1).2.1 =
      [XRequest.SendEventClientMessage 1 wmProtocolsAtom
        [wmDelWindowAtom, currentTime, 0, 0, 0], XRequest.Flush] ∧
    (kill_window envOk st1 1).2.1 = [XRequest.KillClient 1] :=
  ⟨(kill_window_one_shot envSupportsDelete st1 1).1,
    ((kill_window_one_shot envSupportsDelete st1 1).2.1 (by decide)).1,
    ((kill_window_one_shot envOk st1 1).2.2 (by decide)).1⟩

/-!
## C7 — button press
-/

/-- C7: a button press on a window that is neither a registered client
nor a registered frame is a silent no-op; on a registered pair the
pressed client becomes the focused window and the raise request for its
frame is issued in every case, while the drag state (anchor = pointer
root coordinates, original rectangle = current frame rectangle) is set
exactly when Ctrl is held or the press target is the frame itself, and
is left untouched otherwise. -/
theorem on_button_press_spec (env : XEnv) (st : ManagerState) (ev : ButtonEvent) :
    (getFrameAndWindow st ev.event = none →
      XHandlers.on_button_press env st ev = (st, [], Except.ok ())) ∧
    (∀ w f, getFrameAndWindow st ev.event = some (w, f) →
      (XHandlers.on_button_press env st ev).1.focused_window = some w ∧
      (XHandlers.on_button_press env st ev).2.1 =
        [XRequest.ConfigureWindow f [ConfigValue.StackMode stackModeAbove]] ∧
      ((ev.state.control || ev.event == f) = true →
        (XHandlers.on_button_press env st ev).1.drag_start =
          some ⟨ev.root_x, ev.root_y⟩ ∧
        (XHandlers.on_button_press env st ev).1.drag_start_frame_rect =
          some (env.window_rect f)) ∧
      ((ev.state.control || ev.event == f) = false →
        (XHandlers.on_button_press env st ev).1.drag_start = st.drag_start ∧
        (XHandlers.on_button_press env st ev).1.drag_start_frame_rect =
          st.drag_start_frame_rect)) := by
  constructor
  · intro h
    simp only [XHandlers.on_button_press, h]
  · intro w f h
    refine ⟨?_, ?_, ?_, ?_⟩
    · simp only [XHandlers.on_button_press, h]
    · simp only [XHandlers.on_button_press, h]
    · intro hc
      simp only [XHandlers.on_button_press, h]
      constructor <;> simp [XHandlers.pressDragState, hc]
    · intro hc
      simp only [XHandlers.on_button_press, h]
      constructor <;> simp [XHandlers.pressDragState, hc]

/-- A modifier-less button press landing on frame 2 itself. -/
def evPress : ButtonEvent :=
  { event := 2, root_x := 3, root_y := 4,
    state := { control := false, button1 := false, button3 := false } }

/-- C7 (witness): pressing the frame (no modifier) focuses the client,
raises the frame, and starts a drag capturing anchor and rectangle. -/
theorem on_button_press_spec_witness :
    (XHandlers.on_button_press envOk st1 evPress).1.focused_window = some 1 ∧
    (XHandlers.on_button_press envOk st1 evPress).2.1 =
      [XRequest.ConfigureWindow 2 [ConfigValue.StackMode stackModeAbove]] ∧
    (XHandlers.on_button_press envOk st1 evPress).1.drag_start = some ⟨3, 4⟩ ∧
    (XHandlers.on_button_press envOk st1 evPress).1.drag_start_frame_rect =
      some rect30 := by
  have h := (on_button_press_spec envOk st1 evPress).2 1 2 (by decide)
  exact ⟨h.1, h.2.1, (h.2.2.1 (by decide)).1, (h.2.2.1 (by decide)).2⟩

/-!
## C9 — move takes precedence over resize
-/

/-- C9: during an active drag, if button 1 is reported held the drag
kind resolves to Move — even when button 3 is held as well (button 1 is
tested first) — and the handler issues the move of the frame to
`originalRect.origin + delta`; the Resize kind is selected exactly when
button 3 is held and button 1 is not. -/
theorem motion_button1_takes_precedence (env : XEnv) (st : ManagerState)
    (ev : ButtonEvent) (w f : Window) (a : Point) (r : Rect)
    (hreg : getFrameAndWindow st ev.event = some (w, f))
    (ha : st.drag_start = some a)
    (hr : st.drag_start_frame_rect = some r)
    (hb1 : ev.state.button1 = true) :
    dragTypeOf ev.state = some DragType.Move ∧
    XHandlers.on_motion_notify env st ev =
      move_window env st w
        ⟨r.x + (ev.root_x - a.x), r.y + (ev.root_y - a.y)⟩ ∧
    (∀ s : KeyButMask, dragTypeOf s = some DragType.Resize ↔
      s.button1 = false ∧ s.button3 = true) := by
  have hdt : dragTypeOf ev.state = some DragType.Move := by
    simp [dragTypeOf, hb1]
  refine ⟨hdt, ?_, ?_⟩
  · simp only [XHandlers.on_motion_notify, hreg, ha, hr, hdt]
  · intro s
    cases hb : s.button1 <;> cases hb3 : s.button3 <;> simp [dragTypeOf, hb, hb3]

/-- A motion event with both button 1 and button 3 held. -/
def evBoth : ButtonEvent :=
  { event := 10, root_x := 7, root_y := 9,
    state := { control := false, button1 := true, button3 := true } }

/-- C9 (witness): with both buttons held during a drag on the 30×30
frame, the handler moves (does not resize) the frame by the delta. -/
theorem motion_button1_takes_precedence_witness :
    dragTypeOf evBoth.state = some DragType.Move ∧
    XHandlers.on_motion_notify envOk stDrag30 evBoth =
      move_window envOk stDrag30 10 ⟨2, 4⟩ := by
  have h := motion_button1_takes_precedence envOk stDrag30 evBoth 10 20
    ⟨5, 5⟩ ⟨0, 0, 30, 30⟩ (by decide) (by decide) (by decide) (by decide)
  exact ⟨h.1, by rw [h.2.1]; decide⟩

/-!
## C10 — configure-request pass-through
-/

/-- C10: for a framed client, `on_configure_request` sends the
identical value list — including the requested absolute `x` and `y` —
first to the frame and then to the client window itself (so the client
ends up at offset `(x, y)` inside its frame, not at the local origin
that framing and `resize_window` establish). -/
theorem configure_request_passthrough (env : XEnv) (st : ManagerState)
    (ev : ConfigureRequestEvent) (f : Window)
    (hreg : getByLeft st.framed_clients ev.window = some f)
    (hok : env.check_fails
      (XRequest.ConfigureWindow f (configRequestValueList ev)) = false) :
    XHandlers.on_configure_request env st ev =
      (st,
        [XRequest.ConfigureWindow f (configRequestValueList ev),
          XRequest.ConfigureWindow ev.window (configRequestValueList ev)],
        if env.check_fails
            (XRequest.ConfigureWindow ev.window (configRequestValueList ev)) then
          Except.error ()
        else Except.ok ()) ∧
    ConfigValue.X ev.x ∈ configRequestValueList ev ∧
    ConfigValue.Y ev.y ∈ configRequestValueList ev := by
  refine ⟨?_, by simp [configRequestValueList], by simp [configRequestValueList]⟩
  simp only [XHandlers.on_configure_request, hreg, hok, Bool.false_eq_true,
    if_false]

/-- A configure request from client 1 asking for geometry (7, 8, 40, 50). -/
def evConf : ConfigureRequestEvent :=
  { window := 1, x := 7, y := 8, width := 40, height := 50,
    border_width := 0, stack_mode := 0 }

/-- C10 (witness): the pass-through at a concrete input — both the
frame and the client receive the same list carrying X=7, Y=8. -/
theorem configure_request_passthrough_witness :
    XHandlers.on_configure_request envOk st1 evConf =
      (st1,
        [XRequest.ConfigureWindow 2 (configRequestValueList evConf),
          XRequest.ConfigureWindow 1 (configRequestValueList evConf)],
        Except.ok ()) ∧
    ConfigValue.X 7 ∈ configRequestValueList evConf := by
  have h := configure_request_passthrough envOk st1 evConf 2 (by decide) (by decide)
  exact ⟨by rw [h.1]; decide, h.2.1⟩
